import Mathlib

/-!
Shallow embedding of the `typescript-induction` repository: the domain
module (`User`, `Admin`, `Result`, `users`) and the runtime behaviour of
the README snippets (`warnUser`, `getUser`, the four `findUser` variants,
`getNewUser`, `isAdmin`).  TypeScript objects become Lean structures,
nullable values become `Option`, the discriminated `Result` union becomes
an inductive type, and `Array.prototype.find` becomes `List.find?`.
-/

namespace TsInduction

/-- Type `User` from `src/domain.ts`: `{ name: string; email: string }`. -/
structure User where
  name : String
  email : String
deriving DecidableEq, Repr

/-- Type `Admin` from `src/domain.ts`: `User & { role: string }`, flattened to
its three structural fields. -/
structure Admin where
  name : String
  email : String
  role : String
deriving DecidableEq, Repr

/-- The width-subtyping projection of an `Admin` onto the `User` fields. -/
def Admin.toUser (a : Admin) : User :=
  { name := a.name, email := a.email }

/-- Constant `users` from `src/domain.ts`: the literal two-element array. -/
def users : List User :=
  [{ name := "A", email := "A@A" }, { name := "B", email := "B@B" }]

/-- Type `Result<E, T>` from `src/domain.ts`: the discriminated union of
`Success<T> = { _type: "success"; value: T }` and
`Error<E> = { _type: "error"; error: E }`. -/
inductive Result (E T : Type) where
  | success (value : T)
  | error (error : E)
deriving DecidableEq, Repr

/-- The `_type` discriminant tag of a `Result` value. -/
def Result.tag {E T : Type} : Result E T → String
  | .success _ => "success"
  | .error _ => "error"

/-- The `value` field of a `Result` value, absent on the error variant. -/
def Result.valueField {E T : Type} : Result E T → Option T
  | .success v => some v
  | .error _ => none

/-- The `error` field of a `Result` value, absent on the success variant. -/
def Result.errorField {E T : Type} : Result E T → Option E
  | .success _ => none
  | .error e => some e

/-- A JavaScript `Error` object, as built by `new Error("Not found.")`. -/
structure JsError where
  message : String
deriving DecidableEq, Repr

/-- The `new Error("Not found.")` value built on the failure path of the
`findUser` family. -/
def notFoundError : JsError := { message := "Not found." }

/-- The body of `warnUser` after destructuring succeeds: the template
string it logs. -/
def warnUserBody (u : User) : String :=
  "Hi " ++ u.name ++ "! We're warning about something on " ++ u.email

/-- Function `warnUser` from README §1, over a nullable argument as permitted
without strict null checks.  Destructuring `null` fails (`none`);
a non-null `User` produces the logged message. -/
def warnUser : Option User → Option String
  | none => none
  | some u => some (warnUserBody u)

/-- Function `getUser` from README §1: returns a user literal or `null` depending
on its boolean argument (whose default is `true` at every call site). -/
def getUser (yes : Bool) : Option User :=
  if yes then some { name := "A", email := "A@A" } else none

/-- Function `findUser` from README §4: `users.find` then wrap in a success or
error record, with no return-type annotation. -/
def findUser (name : String) : Result JsError User :=
  match users.find? (fun u => u.name == name) with
  | some user => .success user
  | none => .error notFoundError

/-- Function `strictFindUser` from README §4: same body as `findUser` under the
explicit annotation `Result<Error, User>`. -/
def strictFindUser (name : String) : Result JsError User :=
  match users.find? (fun u => u.name == name) with
  | some user => .success user
  | none => .error notFoundError

/-- Function `constFindUser` from README §4: same body with `as const` on each
returned literal (a no-op at runtime). -/
def constFindUser (name : String) : Result JsError User :=
  match users.find? (fun u => u.name == name) with
  | some user => .success user
  | none => .error notFoundError

/-- Function `overwriteFindUser` from README §4: same body with both the
`Result<Error, User>` annotation and `as const` literals. -/
def overwriteFindUser (name : String) : Result JsError User :=
  match users.find? (fun u => u.name == name) with
  | some user => .success user
  | none => .error notFoundError

/-- The runtime value built by `getNewUser` in README §4: a record that
carries a `password` field beyond the declared `User` return type. -/
structure UserWithPassword where
  name : String
  email : String
  password : String
deriving DecidableEq, Repr

/-- Function `getNewUser` from README §4: declared to return `User`, but the value
it builds and returns at runtime keeps all three fields. -/
def getNewUser : UserWithPassword :=
  { name := "B", email := "B@B", password := "YOU SHOULD NOT SEE IT!!!" }

/-- The `User`-shaped view of a `UserWithPassword`, i.e. what the
declared return type of `getNewUser` promises. -/
def UserWithPassword.toUser (u : UserWithPassword) : User :=
  { name := u.name, email := u.email }

/-- A runtime value flowing into `isAdmin`: statically a `User`, so
`name` and `email` are present, but the underlying object may carry a
`role` field (e.g. the `admin` bound to `let u: User = admin`). -/
structure RtUser where
  name : String
  email : String
  role : Option String
deriving DecidableEq, Repr

/-- JavaScript truthiness of a possibly-absent string property: absent
means `undefined` (falsy) and the empty string is falsy. -/
def truthy : Option String → Bool
  | none => false
  | some s => s ≠ ""

/-- The body of `isAdmin` from README §5 as a straight-line statement
list: each entry is a guard and the boolean returned when the guard
holds.  Statements in order: `if ((u as any).role) return true`,
`if ((u as Admin).role) return true`, `return false`, and the trailing
`return "role" in u`. -/
def isAdminStmts (u : RtUser) : List (Bool × Bool) :=
  [ (truthy u.role, true),
    (truthy u.role, true),
    (true, false),
    (true, u.role.isSome) ]

/-- Execute a straight-line statement list: the first statement whose
guard holds returns, yielding its index and returned value. -/
def firstReturn : List (Bool × Bool) → Option (Nat × Bool)
  | [] => none
  | (g, v) :: rest =>
    if g then some (0, v)
    else (firstReturn rest).map (fun p => (p.1 + 1, p.2))

/-- Running `isAdmin` on a runtime value: which statement returns, and
what it returns. -/
def isAdminRun (u : RtUser) : Option (Nat × Bool) :=
  firstReturn (isAdminStmts u)

/-- Function `isAdmin` from README §5: the boolean produced by the first statement
that returns. -/
def isAdmin (u : RtUser) : Option Bool :=
  (isAdminRun u).map Prod.snd

/-- A runtime record over the fields occurring in the repository, each
possibly absent, for stating structural (width) subtyping. -/
structure RtVal where
  name : Option String
  email : Option String
  role : Option String
deriving DecidableEq, Repr

/-- A runtime record satisfies the `User` shape when `name` and `email`
are present. -/
def isUserShape (v : RtVal) : Bool :=
  v.name.isSome && v.email.isSome

/-- A runtime record satisfies the `Admin` shape when it satisfies the
`User` shape and additionally has a `role`. -/
def isAdminShape (v : RtVal) : Bool :=
  isUserShape v && v.role.isSome

/-- The runtime record of an `Admin` value. -/
def Admin.toRtVal (a : Admin) : RtVal :=
  { name := some a.name, email := some a.email, role := some a.role }

/-- Type `IdentifiedUser` from README §2: `User & { id: number }`. -/
structure IdentifiedUser where
  name : String
  email : String
  id : Nat
deriving DecidableEq, Repr

/-- The module store: the mutable environment holding `users`, threaded
through each snippet to record reads and (absent) writes. -/
structure Store where
  users : List User
deriving DecidableEq, Repr

/-- The store as initialised when `src/domain.ts` loads. -/
def loadStore : Store := { users := users }

/-- The `users.find((u) => u.name == "A")` snippet of README §1 as a
store operation. -/
def findSnippet (st : Store) : Store × Option User :=
  (st, st.users.find? (fun u => u.name == "A"))

/-- The `findUser` family as a store operation reading `users`. -/
def findUserOp (st : Store) (name : String) : Store × Result JsError User :=
  (st, match st.users.find? (fun u => u.name == name) with
       | some user => .success user
       | none => .error notFoundError)

/-- The `n1` reduce snippet of README §2 as a store operation:
`users.reduce((_users, current) => _users.concat({ ...current, id: 1 }), [])`. -/
def reduceOp (st : Store) : Store × List IdentifiedUser :=
  (st, st.users.foldl
    (fun acc current => acc ++ [{ name := current.name, email := current.email, id := 1 }])
    [])

/-- Claim C1: for every input `u`, `isAdmin` returns from one of its
first three statements (index at most 2), so the trailing structural
check `"role" in u` at index 3 is never evaluated. -/
theorem isAdmin_last_statement_unreachable :
    ∀ u : RtUser, ∃ i b, isAdminRun u = some (i, b) ∧ i ≤ 2 := by
  intro u
  cases h : truthy u.role
  · exact ⟨2, false, by simp [isAdminRun, isAdminStmts, firstReturn, h], by omega⟩
  · exact ⟨0, true, by simp [isAdminRun, isAdminStmts, firstReturn, h], by omega⟩

/-- Claim C2: every `Result` value is exactly one of the two variants,
distinguished solely by its `_type` tag, and no value carries both a
`value` field and an `error` field. -/
theorem result_exactly_one_variant :
    ∀ (E T : Type) (r : Result E T),
      ((r.tag = "success" ∧ (∃ v, r = .success v) ∧ r.valueField.isSome ∧ r.errorField = none) ∨
       (r.tag = "error" ∧ (∃ e, r = .error e) ∧ r.errorField.isSome ∧ r.valueField = none)) ∧
      ¬(r.valueField.isSome ∧ r.errorField.isSome) := by
  intro E T r
  cases r <;>
    simp [Result.tag, Result.valueField, Result.errorField]

/-- Claim C3: `users` has length exactly two, with first element
`{name: "A", email: "A@A"}` and second element `{name: "B", email: "B@B"}`. -/
theorem users_is_the_two_literals :
    users.length = 2 ∧
    users[0]? = some { name := "A", email := "A@A" } ∧
    users[1]? = some { name := "B", email := "B@B" } :=
  ⟨rfl, rfl, rfl⟩

/-- Claim C4: at runtime `getNewUser` returns a value that still carries
`password = "YOU SHOULD NOT SEE IT!!!"` alongside `name = "B"` and
`email = "B@B"`; the declared `User` return type strips nothing. -/
theorem getNewUser_keeps_password :
    getNewUser.name = "B" ∧
    getNewUser.email = "B@B" ∧
    getNewUser.password = "YOU SHOULD NOT SEE IT!!!" ∧
    getNewUser.toUser = { name := "B", email := "B@B" } :=
  ⟨rfl, rfl, rfl, rfl⟩

/-- Claim C5: `warnUser` requires a non-null `User` for its destructuring
to succeed; applied to null it reaches the failure that strict null
checking rules out, and it succeeds exactly on non-null arguments. -/
theorem warnUser_null_reaches_failure :
    warnUser none = none ∧
    (∀ u : User, warnUser (some u) = some (warnUserBody u)) ∧
    (∀ o : Option User, (warnUser o).isSome = o.isSome) :=
  ⟨rfl, fun _ => rfl, fun o => by cases o <;> rfl⟩

/-- Claim C6: every runtime record of `Admin` shape also satisfies the
`User` shape (width subtyping), every `Admin` value's runtime record is a
well-formed `User`, and an operation expecting a `User` (here `warnUser`)
accepts the projection of any `Admin`. -/
theorem admin_satisfies_user_shape :
    (∀ v : RtVal, isAdminShape v = true → isUserShape v = true) ∧
    (∀ a : Admin,
      isUserShape a.toRtVal = true ∧
      a.toUser = { name := a.name, email := a.email } ∧
      warnUser (some a.toUser) = some (warnUserBody a.toUser)) := by
  constructor
  · intro v h
    simp only [isAdminShape, Bool.and_eq_true] at h
    exact h.1
  · intro a
    exact ⟨rfl, rfl, rfl⟩

/-- Witness for C6 at the concrete admin of README §5. -/
theorem admin_satisfies_user_shape_witness :
    isUserShape { name := some "A", email := some "A@A", role := some "Administrator" } = true :=
  admin_satisfies_user_shape.1
    { name := some "A", email := some "A@A", role := some "Administrator" } (by decide)

/-- Claim C7: every function in the source terminates on every input:
each application reduces to a value, and in particular `isAdmin`'s
statement list always reaches a `return`. -/
theorem all_functions_total :
    (∀ o : Option User, ∃ r, warnUser o = r) ∧
    (∀ y : Bool, ∃ r, getUser y = r) ∧
    (∀ n : String, ∃ r, findUser n = r) ∧
    (∀ n : String, ∃ r, strictFindUser n = r) ∧
    (∀ n : String, ∃ r, constFindUser n = r) ∧
    (∀ n : String, ∃ r, overwriteFindUser n = r) ∧
    (∃ r, getNewUser = r) ∧
    (∀ u : RtUser, ∃ b, isAdmin u = some b) := by
  refine ⟨fun o => ⟨_, rfl⟩, fun y => ⟨_, rfl⟩, fun n => ⟨_, rfl⟩, fun n => ⟨_, rfl⟩,
    fun n => ⟨_, rfl⟩, fun n => ⟨_, rfl⟩, ⟨_, rfl⟩, fun u => ?_⟩
  cases h : truthy u.role
  · exact ⟨false, by simp [isAdmin, isAdminRun, isAdminStmts, firstReturn, h]⟩
  · exact ⟨true, by simp [isAdmin, isAdminRun, isAdminStmts, firstReturn, h]⟩

/-- Claim C8: no operation mutates the `users` collection: the store
loaded from the module equals the literal, every snippet returns its
store unchanged, and any composition of the snippets leaves the store at
its initial value. -/
theorem users_never_mutated :
    loadStore.users = users ∧
    (∀ st name, (findUserOp st name).1 = st) ∧
    (∀ st, (findSnippet st).1 = st) ∧
    (∀ st, (reduceOp st).1 = st) ∧
    (reduceOp (findSnippet (findUserOp loadStore "A").1).1).1 = loadStore :=
  ⟨rfl, fun _ _ => rfl, fun _ => rfl, fun _ => rfl, rfl⟩

/-- Claim C9: the four lookup variants are extensionally equal, and each
returns a success wrapping the first user whose name matches, or an
error wrapping `Error("Not found.")`. -/
theorem find_variants_extensionally_equal :
    ∀ name : String,
      findUser name = strictFindUser name ∧
      findUser name = constFindUser name ∧
      findUser name = overwriteFindUser name ∧
      (match users.find? (fun u => u.name == name) with
       | some u => findUser name = .success u
       | none => findUser name = .error notFoundError) := by
  intro name
  refine ⟨rfl, rfl, rfl, ?_⟩
  cases h : users.find? (fun u => u.name == name) <;> simp [findUser, h]

/-- Claim C10: `strictFindUser name` is the error variant with message
`"Not found."` iff no element of `users` is named `name`; otherwise it is
the success variant holding the first such element — so it succeeds on
`"A"` and `"B"` and errors on every other name. -/
theorem strictFindUser_error_iff_absent :
    ∀ name : String,
      (strictFindUser name = .error notFoundError ↔ ∀ u ∈ users, u.name ≠ name) ∧
      (∀ u, users.find? (fun x => x.name == name) = some u →
        strictFindUser name = .success u) ∧
      strictFindUser "A" = .success { name := "A", email := "A@A" } ∧
      strictFindUser "B" = .success { name := "B", email := "B@B" } ∧
      (name ≠ "A" → name ≠ "B" → strictFindUser name = .error notFoundError) := by
  intro name
  refine ⟨?_, ?_, rfl, rfl, ?_⟩
  · constructor
    · intro h u hu hname
      cases hfind : users.find? (fun x => x.name == name) with
      | none =>
        have := List.find?_eq_none.mp hfind u hu
        simp [hname] at this
      | some w =>
        simp [strictFindUser, hfind] at h
    · intro h
      have hfind : users.find? (fun x => x.name == name) = none := by
        rw [List.find?_eq_none]
        intro x hx
        simp [h x hx]
      simp [strictFindUser, hfind]
  · intro u hu
    simp [strictFindUser, hu]
  · intro hA hB
    have hfind : users.find? (fun x => x.name == name) = none := by
      rw [List.find?_eq_none]
      intro x hx
      simp only [users, List.mem_cons, List.mem_singleton, List.not_mem_nil] at hx
      rcases hx with h | h | h
      · subst h
        simp only [beq_iff_eq]
        exact fun h => hA h.symm
      · subst h
        simp only [beq_iff_eq]
        exact fun h => hB h.symm
      · exact absurd h (by simp)
    simp [strictFindUser, hfind]

/-- Witness for C10 at the concrete name `"C"`, absent from `users`. -/
theorem strictFindUser_error_iff_absent_witness :
    strictFindUser "C" = Result.error notFoundError :=
  (strictFindUser_error_iff_absent "C").2.2.2.2 (by decide) (by decide)

end TsInduction
